import Mathlib

/-!
Shallow embedding of the Vue code generator of
`src/backend/src/routes/apps.js` (`generateVueApp`,
`generateVuePageComponent`, `generateVueTemplate`, `generateVueStyles`,
`generateVueCustomComponent`).

Modelling conventions:
* JavaScript strings are Lean `String`s; absent values (`undefined`/`null`)
  are `Option`.
* JavaScript objects used as ordered string maps (`content.styles`, the
  virtual file map) are association lists `List (String × String)`; property
  assignment on an existing key overwrites in place, a new key is appended,
  matching JavaScript property-order semantics.
* `x || d` on strings is `jsOr` (falls through on `undefined` and on `""`),
  on numbers `jsOrNat` (falls through on `undefined` and on `0`).
* Template-literal interpolation of a possibly-undefined string is
  `jsInterp` (JavaScript renders `undefined` as the text `undefined`).
* Numeric props (`level`, `columns`) are used as integers by the code and
  are modelled as `Nat`.
-/

/-- The JavaScript regex `\s` character class (ASCII whitespace plus the
Unicode space code points), used by `.replace(/\s+/g, …)`. -/
def isJsWhitespace (c : Char) : Bool :=
  let n := c.toNat
  n = 32 || n = 9 || n = 10 || n = 13 || n = 11 || n = 12 ||
  n = 0xa0 || n = 0x1680 || (0x2000 ≤ n && n ≤ 0x200a) ||
  n = 0x2028 || n = 0x2029 || n = 0x202f || n = 0x205f ||
  n = 0x3000 || n = 0xfeff

/-- The `replace` of every whitespace run by an empty replacement, as in
`name.replace` with the global whitespace pattern: character-wise
filtering. -/
def stripWS (s : String) : String :=
  ⟨s.data.filter (fun c => !isJsWhitespace c)⟩

/-- Helper for replacing whitespace runs by hyphens: the flag records
whether the previous
character was part of a whitespace run already replaced by `-`. -/
def collapseWSAux : Bool → List Char → List Char
  | _, [] => []
  | inRun, c :: rest =>
    if isJsWhitespace c then
      (if inRun then [] else ['-']) ++ collapseWSAux true rest
    else c :: collapseWSAux false rest

/-- Lowercasing followed by replacement of every whitespace run with a
hyphen, as in `name.toLowerCase().replace` (page CSS-class scoping). -/
def lowerDash (s : String) : String :=
  ⟨collapseWSAux false (s.data.map Char.toLower)⟩

/-- Lowercasing of a plain string, as in `name.toLowerCase()`. -/
def lowerStr (s : String) : String :=
  ⟨s.data.map Char.toLower⟩

/-- JavaScript `x || d` for a possibly-undefined string: `undefined` and the
empty string are falsy. -/
def jsOr (o : Option String) (d : String) : String :=
  match o with
  | none => d
  | some s => if s = "" then d else s

/-- JavaScript `x || d` for a possibly-undefined number: `undefined` and `0`
are falsy. -/
def jsOrNat (o : Option Nat) (d : Nat) : Nat :=
  match o with
  | none => d
  | some n => if n = 0 then d else n

/-- Template-literal interpolation `${x}` of a possibly-undefined string:
JavaScript stringifies `undefined` to the text `undefined`. -/
def jsInterp (o : Option String) : String :=
  match o with
  | none => "undefined"
  | some s => s

/-- JavaScript truthiness of a possibly-undefined string. -/
def jsTruthy (o : Option String) : Bool :=
  match o with
  | none => false
  | some s => s ≠ ""

/-- Kebab-casing of a style key: every ASCII uppercase letter becomes a
hyphen followed by its lowercase form, as in the `key.replace` call of
`generateVueStyles`. -/
def kebabOf (s : String) : String :=
  ⟨s.data.foldr (fun c acc =>
    if c.isUpper then '-' :: c.toLower :: acc else c :: acc) []⟩

/-- Embedding of `generateVueStyles(styles)` (apps.js lines 2004–2013):
`undefined` gives
the empty string; otherwise each `[key, value]` entry appends
`  kebabKey: value;\n` to the accumulated CSS text, in iteration order. -/
def generateVueStyles (styles : Option (List (String × String))) : String :=
  match styles with
  | none => ""
  | some entries =>
    entries.foldl
      (fun css kv => css ++ "  " ++ kebabOf kv.1 ++ ": " ++ kv.2 ++ ";\n") ""

/-- The per-type props consulted by the emitter switch. Fields the node does
not carry are `none` (JavaScript `undefined`). -/
structure Props where
  level : Option Nat := none
  text : Option String := none
  content : Option String := none
  src : Option String := none
  alt : Option String := none
  className : Option String := none
  title : Option String := none
  subtitle : Option String := none
  buttonText : Option String := none
  description : Option String := none
  columns : Option Nat := none
  gap : Option String := none

/-- Optional chaining `component.props?.field` for string props. -/
def propS (p : Option Props) (f : Props → Option String) : Option String :=
  p.bind f

/-- Optional chaining `component.props?.field` for numeric props. -/
def propN (p : Option Props) (f : Props → Option Nat) : Option Nat :=
  p.bind f

/-- A page component-tree node: `type`, optional `props`, optional
`children`. -/
inductive Component : Type where
  | mk (type : String) (props : Option Props)
      (children : Option (List Component)) : Component

/-- The node's `type` tag. -/
def Component.type : Component → String
  | .mk t _ _ => t

/-- The node's `props`. -/
def Component.props : Component → Option Props
  | .mk _ p _ => p

/-- The node's `children`. -/
def Component.children : Component → Option (List Component)
  | .mk _ _ ch => ch

/-- The `switch (component.type)` body of `generateVueTemplate`
(apps.js lines 1965–2001), with the already-rendered children markup
(`component.children` rendered by `generateVueTemplate` when present, the
empty string otherwise)
passed in as `childBody`; only the `container` and `grid` arms splice it. -/
def renderBody (t : String) (p : Option Props) (childBody : String) : String :=
  if t = "heading" then
    "    <h" ++ toString (jsOrNat (propN p Props.level) 1) ++
      " class=\"heading\">" ++ jsOr (propS p Props.text) "" ++
      "</h" ++ toString (jsOrNat (propN p Props.level) 1) ++ ">"
  else if t = "text" then
    "    <p class=\"text\">" ++ jsOr (propS p Props.content) "" ++ "</p>"
  else if t = "button" then
    "    <button class=\"btn\" @click=\"handleClick\">" ++
      jsOr (propS p Props.text) "Button" ++ "</button>"
  else if t = "image" then
    "    <img src=\"" ++ jsOr (propS p Props.src) "" ++ "\" alt=\"" ++
      jsOr (propS p Props.alt) "" ++ "\" class=\"image\" />"
  else if t = "container" then
    "    <div class=\"container " ++ jsOr (propS p Props.className) "" ++
      "\">\n" ++ childBody ++ "\n    </div>"
  else if t = "hero" then
    "    <section class=\"hero\">\n      <div class=\"hero-content\">\n        <h1 class=\"hero-title\">" ++
      jsOr (propS p Props.title) "" ++
      "</h1>\n        <p class=\"hero-subtitle\">" ++
      jsOr (propS p Props.subtitle) "" ++ "</p>\n        " ++
      (if jsTruthy (propS p Props.buttonText) then
        "<button class=\"hero-button\">" ++
          jsInterp (propS p Props.buttonText) ++ "</button>"
      else "") ++
      "\n      </div>\n    </section>"
  else if t = "card" then
    "    <div class=\"card\">\n      <h3 class=\"card-title\">" ++
      jsOr (propS p Props.title) "" ++
      "</h3>\n      <p class=\"card-description\">" ++
      jsOr (propS p Props.description) "" ++ "</p>\n    </div>"
  else if t = "grid" then
    "    <div class=\"grid\" style=\"grid-template-columns: repeat(" ++
      toString (jsOrNat (propN p Props.columns) 1) ++ ", 1fr); gap: " ++
      jsOr (propS p Props.gap) "1rem" ++ ";\">\n" ++ childBody ++
      "\n    </div>"
  else
    "    <div class=\"" ++ t ++ "\"><!-- " ++ t ++ " component --></div>"

mutual

/-- One `components.map(component => switch …)` element of
`generateVueTemplate`: render a single node, recursing into its
`children` when present. -/
def renderComponent : Component → String
  | .mk t p ch =>
    renderBody t p
      (match ch with
       | none => ""
       | some cs => generateVueTemplate cs)
termination_by c => sizeOf c
decreasing_by
  all_goals simp_wf
  all_goals omega

/-- Embedding of `generateVueTemplate(components)` (apps.js lines
1960–2002): the
empty-page placeholder for an empty list, otherwise the per-node renderings
joined by a newline. -/
def generateVueTemplate : List Component → String
  | [] => "    <div class=\"empty-page\">This page is empty</div>"
  | [c] => renderComponent c
  | c :: rest => renderComponent c ++ "\n" ++ generateVueTemplate rest
termination_by cs => sizeOf cs
decreasing_by
  all_goals simp_wf
  all_goals omega

end

mutual

/-- Fuel-bounded variant of `renderComponent`: `none` when the recursion
depth exceeds the fuel. The source places no such bound; this function
witnesses that a bound of the tree size always suffices. -/
def renderComponentF : Nat → Component → Option String
  | 0, _ => none
  | n + 1, .mk t p ch =>
    (match ch with
     | none => some ""
     | some cs => generateVueTemplateF n cs).map (renderBody t p)
termination_by n _ => n

/-- Fuel-bounded variant of `generateVueTemplate`. -/
def generateVueTemplateF : Nat → List Component → Option String
  | 0, _ => none
  | _ + 1, [] => some "    <div class=\"empty-page\">This page is empty</div>"
  | n + 1, [c] => renderComponentF n c
  | n + 1, c :: rest =>
    (renderComponentF n c).bind (fun s =>
      (generateVueTemplateF n rest).map (fun t2 => s ++ "\n" ++ t2))
termination_by n _ => n

end

/-- SEO metadata, `content.seo`. -/
structure Seo where
  title : Option String := none
  description : Option String := none

/-- Page content, `page.content`. -/
structure PageContent where
  components : Option (List Component) := none
  seo : Option Seo := none
  styles : Option (List (String × String)) := none

/-- A page record as consumed by the generator. -/
structure Page where
  name : String
  path : String
  content : Option PageContent := none

/-- Theme record, `app.theme`. -/
structure Theme where
  fontFamily : Option String := none
  backgroundColor : Option String := none
  textColor : Option String := none

/-- An app record as consumed by the generator. -/
structure App where
  name : String
  subdomain : String
  theme : Option Theme := none

/-- A custom component record. The code serializes `component.props` with
`JSON.stringify` with two-space indentation and uses the result only as
plain text, so the record carries that rendered JSON text directly. -/
structure CustomComponent where
  name : String
  template : Option String := none
  propsJson : String := "\x7b\x7d"
  styles : Option (List (String × String)) := none

/-- An active function record; `generateVueApp` receives the list but its
body never reads it. -/
structure FunctionRec where
  name : String
  trigger : String := ""
  code : String := ""

/-- Components list `page.content?.components || []` (apps.js line 1916).
A present empty
array is truthy in JavaScript and is kept as is. -/
def pageComponents (page : Page) : List Component :=
  match page.content.bind PageContent.components with
  | none => []
  | some cs => cs

/-- Optional chain `page.content?.seo?.title`. -/
def pageSeoTitle (page : Page) : Option String :=
  (page.content.bind PageContent.seo).bind Seo.title

/-- Optional chain `page.content?.seo?.description`. -/
def pageSeoDescription (page : Page) : Option String :=
  (page.content.bind PageContent.seo).bind Seo.description

/-- Optional chain `page.content?.styles`. -/
def pageStyles (page : Page) : Option (List (String × String)) :=
  page.content.bind PageContent.styles

/-- The fixed text of the emitted page component before the
`${generateVueTemplate(components)}` hole (apps.js lines 1918–1920). -/
def pageHead (page : Page) : String :=
  "<template>\n  <div class=\"page-" ++ lowerDash page.name ++ "\">\n"

/-- The text of the emitted page component after the
`${generateVueTemplate(components)}` hole (apps.js lines 1921–1957):
script block (component name, `mounted()` title/meta-description code) and
scoped style block. -/
def pageTail (page : Page) (app : App) : String :=
  "\n  </div>\n</template>\n\n<script>\nexport default \x7b\n  name: \x27" ++
  stripWS page.name ++
  "\x27,\n  data() \x7b\n    return \x7b\n      // Page data\n    \x7d\n  \x7d,\n  methods: \x7b\n    // Page methods\n  \x7d,\n  mounted() \x7b\n    // Set page title\n    document.title = \x27" ++
  jsOr (pageSeoTitle page) page.name ++ " | " ++ app.name ++
  "\x27;\n\n    // Set meta description\n    if (\x27" ++
  jsInterp (pageSeoDescription page) ++
  "\x27) \x7b\n      const metaDesc = document.querySelector(\x27meta[name=\"description\"]\x27);\n      if (metaDesc) \x7b\n        metaDesc.content = \x27" ++
  jsInterp (pageSeoDescription page) ++
  "\x27;\n      \x7d else \x7b\n        const meta = document.createElement(\x27meta\x27);\n        meta.name = \x27description\x27;\n        meta.content = \x27" ++
  jsInterp (pageSeoDescription page) ++
  "\x27;\n        document.getElementsByTagName(\x27head\x27)[0].appendChild(meta);\n      \x7d\n    \x7d\n  \x7d\n\x7d\n</script>\n\n<style scoped>\n" ++
  generateVueStyles (pageStyles page) ++ "\n</style>"

/-- Embedding of `generateVuePageComponent(page, app)` (apps.js lines
1915–1958). -/
def generateVuePageComponent (page : Page) (app : App) : String :=
  pageHead page ++ generateVueTemplate (pageComponents page) ++
    pageTail page app

/-- Embedding of `generateVueCustomComponent(component)` (apps.js lines
2015–2037). -/
def generateVueCustomComponent (component : CustomComponent) : String :=
  "<template>\n  <div class=\"custom-" ++ lowerStr component.name ++
  "\">\n    " ++
  jsOr component.template "<!-- Custom component template -->" ++
  "\n  </div>\n</template>\n\n<script>\nexport default \x7b\n  name: \x27" ++
  component.name ++ "\x27,\n  props: " ++ component.propsJson ++
  ",\n  data() \x7b\n    return \x7b\n      // Component data\n    \x7d\n  \x7d\n\x7d\n</script>\n\n<style scoped>\n" ++
  generateVueStyles component.styles ++ "\n</style>"

/-- The `package.json` entry of the assembled file map. The code stores a
JavaScript object literal built from `app.subdomain` and fixed fields; it is
modelled by that object's JSON text. -/
def packageJson (app : App) : String :=
  "\x7b\n  \"name\": \"" ++ app.subdomain ++
  "\",\n  \"version\": \"1.0.0\",\n  \"private\": true,\n  \"scripts\": \x7b\n    \"serve\": \"vue-cli-service serve\",\n    \"build\": \"vue-cli-service build\",\n    \"lint\": \"vue-cli-service lint\"\n  \x7d,\n  \"dependencies\": \x7b\n    \"vue\": \"^3.2.13\",\n    \"vue-router\": \"^4.0.3\",\n    \"@vue/cli-service\": \"^5.0.0\"\n  \x7d\n\x7d"

/-- One element of the `routes` array in the emitted `src/main.js`
(apps.js lines 1862–1866). -/
def routeEntry (page : Page) : String :=
  "  \x7b\n    path: \x27" ++ page.path ++ "\x27,\n    name: \x27" ++
  stripWS page.name ++
  "\x27,\n    component: () => import(\x27./views/" ++ stripWS page.name ++
  ".vue\x27)\n  \x7d"

/-- Join of a list of strings with a separator, `Array.prototype.join`. -/
def joinSep (sep : String) : List String → String
  | [] => ""
  | [s] => s
  | s :: rest => s ++ sep ++ joinSep sep rest

/-- The emitted `src/main.js` content (apps.js lines 1857–1874). -/
def mainJs (pages : List Page) : String :=
  "import \x7b createApp \x7d from \x27vue\x27\nimport \x7b createRouter, createWebHistory \x7d from \x27vue-router\x27\nimport App from \x27./App.vue\x27\n\nconst routes = [\n" ++
  joinSep ",\n" (pages.map routeEntry) ++
  "\n]\n\nconst router = createRouter(\x7b\n  history: createWebHistory(),\n  routes\n\x7d)\n\ncreateApp(App).use(router).mount(\x27#app\x27)"

/-- The emitted `src/App.vue` content (apps.js lines 1875–1898). -/
def appVue (app : App) : String :=
  "<template>\n  <div id=\"app\">\n    <router-view />\n  </div>\n</template>\n\n<script>\nexport default \x7b\n  name: \x27App\x27\n\x7d\n</script>\n\n<style>\nbody \x7b\n  margin: 0;\n  font-family: " ++
  jsOr (app.theme.bind Theme.fontFamily) "Inter" ++
  ", -apple-system, BlinkMacSystemFont, sans-serif;\n  background-color: " ++
  jsOr (app.theme.bind Theme.backgroundColor) "#ffffff" ++
  ";\n  color: " ++ jsOr (app.theme.bind Theme.textColor) "#1a1a1a" ++
  ";\n\x7d\n\n* \x7b\n  box-sizing: border-box;\n\x7d\n</style>"

/-- JavaScript property assignment `obj[k] = v` on an object modelled as an
ordered association list: an existing key keeps its position and gets the
new value, a new key is appended. -/
def objSet (m : List (String × String)) (k v : String) :
    List (String × String) :=
  if m.any (fun kv => kv.1 == k) then
    m.map (fun kv => if kv.1 == k then (k, v) else kv)
  else m ++ [(k, v)]

/-- The virtual file name `src/views/${page.name.replace(/\s+/g, '')}.vue`
under which a page's emitted component is stored (apps.js line 1904). -/
def pageFileKey (page : Page) : String :=
  "src/views/" ++ stripWS page.name ++ ".vue"

/-- The virtual file name for a custom component (apps.js line 1909). -/
def componentFileKey (c : CustomComponent) : String :=
  "src/components/" ++ c.name ++ ".vue"

set_option linter.unusedVariables false in
/-- Embedding of `generateVueApp(app, pages, components, functions)`
(apps.js lines 1839–1913): the base object literal with `package.json`,
`src/main.js` and `src/App.vue`, then one property assignment per page and
per custom component. The `functions` argument is never read by the body. -/
def generateVueApp (app : App) (pages : List Page)
    (components : List CustomComponent) (functions : List FunctionRec) :
    List (String × String) :=
  let base := [("package.json", packageJson app),
               ("src/main.js", mainJs pages),
               ("src/App.vue", appVue app)]
  let withPages := pages.foldl
    (fun m page => objSet m (pageFileKey page)
      (generateVuePageComponent page app)) base
  components.foldl
    (fun m c => objSet m (componentFileKey c)
      (generateVueCustomComponent c)) withPages

/-- Predicate `leadsWith p l`: the character list `p` is an initial segment
of `l`. -/
def leadsWith : List Char → List Char → Bool
  | [], _ => true
  | _ :: _, [] => false
  | a :: p, b :: l => a == b && leadsWith p l

/-- Predicate `hasSeg p l`: the character list `p` occurs contiguously
inside `l`. -/
def hasSeg : List Char → List Char → Bool
  | p, [] => leadsWith p []
  | p, l@(_ :: r) => leadsWith p l || hasSeg p r

/-- Predicate `hasSegS p s`: the string `p` occurs contiguously inside the
string `s`. -/
def hasSegS (p s : String) : Bool :=
  hasSeg p.data s.data

/-- Sample app metadata used in concrete instantiations. -/
def sampleApp : App :=
  { name := "Demo App", subdomain := "demo" }

/-- A page whose `content.seo` carries a title but no description. -/
def pageNoDesc : Page :=
  { name := "Home"
    path := "/"
    content := some { seo := some { title := some "Welcome" } } }

/-- A page named `"Home Page"` (whitespace inside the name). -/
def pageSpacedName : Page :=
  { name := "Home Page", path := "/" }

/-- A page named `"HomePage"`: a different name that strips to the same
file identifier as `pageSpacedName`. -/
def pagePlainName : Page :=
  { name := "HomePage", path := "/home" }

theorem leadsWith_iff (p l : List Char) :
    leadsWith p l = true ↔ ∃ t, l = p ++ t := by
  induction p generalizing l with
  | nil => simp [leadsWith]
  | cons a p ih =>
    cases l with
    | nil => simp [leadsWith]
    | cons b l =>
      rw [leadsWith]
      simp only [Bool.and_eq_true, beq_iff_eq, ih, List.cons_append,
        List.cons.injEq]
      constructor
      · rintro ⟨rfl, t, rfl⟩
        exact ⟨t, rfl, rfl⟩
      · rintro ⟨t, rfl, rfl⟩
        exact ⟨rfl, t, rfl⟩

theorem hasSeg_iff (p l : List Char) :
    hasSeg p l = true ↔ ∃ u v, l = u ++ p ++ v := by
  induction l with
  | nil =>
    rw [hasSeg, leadsWith_iff]
    constructor
    · rintro ⟨t, ht⟩
      exact ⟨[], t, by simpa using ht⟩
    · rintro ⟨u, v, h⟩
      obtain ⟨h1, h2⟩ := List.append_eq_nil.mp h.symm
      obtain ⟨h3, h4⟩ := List.append_eq_nil.mp h1
      exact ⟨[], by simp [h4]⟩
  | cons b r ih =>
    rw [hasSeg]
    simp only [Bool.or_eq_true, leadsWith_iff, ih]
    constructor
    · rintro (⟨t, ht⟩ | ⟨u, v, rfl⟩)
      · exact ⟨[], t, by simpa using ht⟩
      · exact ⟨b :: u, v, rfl⟩
    · rintro ⟨u, v, h⟩
      cases u with
      | nil =>
        left
        exact ⟨v, by simpa using h⟩
      | cons x u =>
        right
        simp only [List.cons_append, List.cons.injEq] at h
        exact ⟨u, v, h.2⟩

theorem hasSeg_mid (u p v : List Char) : hasSeg p (u ++ p ++ v) = true :=
  (hasSeg_iff p _).mpr ⟨u, v, rfl⟩

theorem hasSeg_refl (p : List Char) : hasSeg p p = true := by
  simpa using hasSeg_mid [] p []

theorem hasSeg_append_left {p u : List Char} (h : hasSeg p u = true)
    (v : List Char) : hasSeg p (u ++ v) = true := by
  obtain ⟨a, b, rfl⟩ := (hasSeg_iff p u).mp h
  exact (hasSeg_iff _ _).mpr ⟨a, b ++ v, by simp⟩

theorem hasSeg_append_right (u : List Char) {p v : List Char}
    (h : hasSeg p v = true) : hasSeg p (u ++ v) = true := by
  obtain ⟨a, b, rfl⟩ := (hasSeg_iff p v).mp h
  exact (hasSeg_iff _ _).mpr ⟨u ++ a, b, by simp⟩

theorem hasSeg_trans {p q l : List Char} (h1 : hasSeg p q = true)
    (h2 : hasSeg q l = true) : hasSeg p l = true := by
  obtain ⟨a, b, rfl⟩ := (hasSeg_iff p q).mp h1
  obtain ⟨c, d, rfl⟩ := (hasSeg_iff _ l).mp h2
  exact (hasSeg_iff _ _).mpr ⟨c ++ a, b ++ d, by simp⟩

theorem data_append (s t : String) : (s ++ t).data = s.data ++ t.data :=
  String.data_append s t

theorem hasSeg_pair_append {a b : Char} {u v : List Char}
    (h : hasSeg [a, b] (u ++ v) = true) :
    hasSeg [a, b] u = true ∨ (u.getLast? = some a ∧ v.head? = some b) ∨
      hasSeg [a, b] v = true := by
  induction u with
  | nil => exact Or.inr (Or.inr (by simpa using h))
  | cons x u ih =>
    rw [List.cons_append, hasSeg, Bool.or_eq_true] at h
    rcases h with h | h
    · rw [leadsWith, Bool.and_eq_true, beq_iff_eq] at h
      obtain ⟨rfl, h2⟩ := h
      cases u with
      | nil =>
        rw [leadsWith_iff] at h2
        obtain ⟨t, rfl⟩ := h2
        exact Or.inr (Or.inl (by simp))
      | cons y u' =>
        simp only [leadsWith, Bool.and_eq_true, beq_iff_eq] at h2
        obtain ⟨rfl, _⟩ := h2
        left
        simp [hasSeg, leadsWith]
    · rcases ih h with h' | ⟨h1, h2⟩ | h'
      · left
        rw [hasSeg, Bool.or_eq_true]
        exact Or.inr h'
      · refine Or.inr (Or.inl ⟨?_, h2⟩)
        cases u with
        | nil => simp at h1
        | cons y u' => simpa [List.getLast?_cons_cons] using h1
      · exact Or.inr (Or.inr h')

theorem hasSegS_mid (u p v : String) : hasSegS p (u ++ p ++ v) = true := by
  unfold hasSegS
  rw [data_append, data_append]
  exact hasSeg_mid u.data p.data v.data

theorem hasSegS_refl (p : String) : hasSegS p p = true :=
  hasSeg_refl p.data

theorem hasSegS_append_left {p u : String} (h : hasSegS p u = true)
    (v : String) : hasSegS p (u ++ v) = true := by
  unfold hasSegS at h ⊢
  rw [data_append]
  exact hasSeg_append_left h v.data

theorem hasSegS_append_right (u : String) {p v : String}
    (h : hasSegS p v = true) : hasSegS p (u ++ v) = true := by
  unfold hasSegS at h ⊢
  rw [data_append]
  exact hasSeg_append_right u.data h

theorem hasSegS_trans {p q l : String} (h1 : hasSegS p q = true)
    (h2 : hasSegS q l = true) : hasSegS p l = true :=
  hasSeg_trans h1 h2

theorem generateVueTemplate_nil :
    generateVueTemplate [] =
      "    <div class=\"empty-page\">This page is empty</div>" := by
  rw [generateVueTemplate]

theorem generateVueTemplate_singleton (c : Component) :
    generateVueTemplate [c] = renderComponent c := by
  rw [generateVueTemplate]

theorem generateVueTemplate_cons (c d : Component) (rest : List Component) :
    generateVueTemplate (c :: d :: rest) =
      renderComponent c ++ "\n" ++ generateVueTemplate (d :: rest) := by
  rw [generateVueTemplate]
  simp

theorem renderComponent_mk (t : String) (p : Option Props)
    (ch : Option (List Component)) :
    renderComponent (.mk t p ch) =
      renderBody t p
        (match ch with
         | none => ""
         | some cs => generateVueTemplate cs) := by
  rw [renderComponent.eq_def]

theorem renderComponent_seg_generateVueTemplate {c : Component}
    {cs : List Component} (h : c ∈ cs) :
    hasSegS (renderComponent c) (generateVueTemplate cs) = true := by
  induction cs with
  | nil => cases h
  | cons d rest ih =>
    cases rest with
    | nil =>
      rw [List.mem_singleton] at h
      subst h
      rw [generateVueTemplate_singleton]
      exact hasSegS_refl _
    | cons e rest' =>
      rw [generateVueTemplate_cons]
      rcases List.mem_cons.mp h with rfl | h'
      · exact hasSegS_append_left
          (hasSegS_append_left (hasSegS_refl _) _) _
      · exact hasSegS_append_right _ (ih h')

/-- C1 (counterexample): on the map `{backgroundColor: "#fff",
padding: "1rem"}` the Style Serializer does not return
`"background-color: #fff;\npadding: 1rem;"`: every emitted declaration is
indented by two spaces and terminated by a newline. -/
theorem c1_styles_counterexample :
    generateVueStyles
        (some [("backgroundColor", "#fff"), ("padding", "1rem")]) ≠
      "background-color: #fff;\npadding: 1rem;" := by
  decide

/-- C1 (amended): `generateVueStyles` returns `""` for missing input and
emits, for each pair in input iteration order, the line
`  kebab-key: value;\n` (two-space indented, newline-terminated, camelCase
key kebab-cased); on the example map the output is
`"  background-color: #fff;\n  padding: 1rem;\n"`. -/
theorem c1_styles_amended :
    generateVueStyles none = "" ∧
    (∀ (entries : List (String × String)) (k v : String),
      generateVueStyles (some (entries ++ [(k, v)])) =
        generateVueStyles (some entries) ++ "  " ++ kebabOf k ++ ": " ++
          v ++ ";\n") ∧
    generateVueStyles
        (some [("backgroundColor", "#fff"), ("padding", "1rem")]) =
      "  background-color: #fff;\n  padding: 1rem;\n" := by
  refine ⟨rfl, ?_, by decide⟩
  intro entries k v
  simp [generateVueStyles, List.foldl_append]

/-- C3: a node whose `type` is outside the emitter's switch enumeration
(in particular any type outside the spec's closed enumeration) never makes
page emission fail — the emitter is a total function — and the emitted page
contains the inert placeholder `<div class="T"><!-- T component --></div>`
carrying the unknown type name as a class with an unimplemented comment. -/
theorem c3_unknown_type_placeholder (page : Page) (app : App) (c : Component)
    (hmem : c ∈ pageComponents page)
    (hunk : c.type ∉ (["heading", "text", "button", "image", "container",
      "hero", "card", "grid"] : List String)) :
    renderComponent c =
      "    <div class=\"" ++ c.type ++ "\"><!-- " ++ c.type ++
        " component --></div>" ∧
    hasSegS ("    <div class=\"" ++ c.type ++ "\"><!-- " ++ c.type ++
        " component --></div>") (generateVuePageComponent page app) = true := by
  have hrc : renderComponent c =
      "    <div class=\"" ++ c.type ++ "\"><!-- " ++ c.type ++
        " component --></div>" := by
    obtain ⟨t, p, ch⟩ := c
    simp only [Component.type, List.mem_cons, List.mem_singleton,
      List.not_mem_nil, not_or, not_false_eq_true, and_true] at hunk
    obtain ⟨h1, h2, h3, h4, h5, h6, h7, h8⟩ := hunk
    rw [renderComponent_mk]
    simp only [Component.type]
    unfold renderBody
    simp [h1, h2, h3, h4, h5, h6, h7, h8]
  refine ⟨hrc, ?_⟩
  have hs := renderComponent_seg_generateVueTemplate hmem
  rw [hrc] at hs
  unfold generateVuePageComponent
  exact hasSegS_append_left (hasSegS_append_right _ hs) _

/-- C3 witness: the `{type: "mystery"}` node inside a concrete page. -/
theorem c3_witness :
    renderComponent (.mk "mystery" none none) =
      "    <div class=\"" ++ (Component.mk "mystery" none none).type ++
        "\"><!-- " ++ (Component.mk "mystery" none none).type ++
        " component --></div>" ∧
    hasSegS ("    <div class=\"" ++
        (Component.mk "mystery" none none).type ++ "\"><!-- " ++
        (Component.mk "mystery" none none).type ++ " component --></div>")
      (generateVuePageComponent
        { name := "P", path := "/",
          content := some { components := some [.mk "mystery" none none] } }
        sampleApp) = true :=
  c3_unknown_type_placeholder
    { name := "P", path := "/",
      content := some { components := some [.mk "mystery" none none] } }
    sampleApp (.mk "mystery" none none)
    (by simp [pageComponents]) (by decide)

/-- C4: a page whose `content.components` is empty or missing is emitted
with exactly the single empty-page placeholder in the markup hole, so the
page source is the fixed head, the placeholder, and the fixed tail, with no
per-type component markup. -/
theorem c4_empty_page_placeholder (page : Page) (app : App)
    (h : pageComponents page = []) :
    generateVueTemplate (pageComponents page) =
      "    <div class=\"empty-page\">This page is empty</div>" ∧
    generateVuePageComponent page app =
      pageHead page ++
        "    <div class=\"empty-page\">This page is empty</div>" ++
        pageTail page app := by
  have h1 : generateVueTemplate (pageComponents page) =
      "    <div class=\"empty-page\">This page is empty</div>" := by
    rw [h, generateVueTemplate_nil]
  refine ⟨h1, ?_⟩
  unfold generateVuePageComponent
  rw [h1]

/-- C4 witness: a page with no `content` at all. -/
theorem c4_witness :
    generateVueTemplate (pageComponents { name := "Empty", path := "/e" }) =
      "    <div class=\"empty-page\">This page is empty</div>" ∧
    generateVuePageComponent { name := "Empty", path := "/e" } sampleApp =
      pageHead { name := "Empty", path := "/e" } ++
        "    <div class=\"empty-page\">This page is empty</div>" ++
        pageTail { name := "Empty", path := "/e" } sampleApp :=
  c4_empty_page_placeholder { name := "Empty", path := "/e" } sampleApp rfl

/-- C5: a grid node is emitted as a wrapper declaring
`repeat(columns || 1, 1fr)` equally-sized tracks and a gap of `props.gap` (default `1rem`), with
the children's renderings nested inside in input order; with
`props.columns = 3` and two children the wrapper declares
`repeat(3, 1fr)` around both children's markup in order. -/
theorem c5_grid (p : Option Props) (c1 c2 : Component) :
    renderComponent (.mk "grid" p (some [c1, c2])) =
      "    <div class=\"grid\" style=\"grid-template-columns: repeat(" ++
        toString (jsOrNat (propN p Props.columns) 1) ++ ", 1fr); gap: " ++
        jsOr (propS p Props.gap) "1rem" ++ ";\">\n" ++
        (renderComponent c1 ++ "\n" ++ renderComponent c2) ++
        "\n    </div>" ∧
    renderComponent (.mk "grid" (some { columns := some 3 }) (some [c1, c2])) =
      "    <div class=\"grid\" style=\"grid-template-columns: repeat(3, 1fr); gap: 1rem;\">\n" ++
        (renderComponent c1 ++ "\n" ++ renderComponent c2) ++
        "\n    </div>" := by
  have hch : generateVueTemplate [c1, c2] =
      renderComponent c1 ++ "\n" ++ renderComponent c2 := by
    rw [generateVueTemplate_cons, generateVueTemplate_singleton]
  constructor
  · rw [renderComponent_mk]
    show renderBody "grid" p (generateVueTemplate [c1, c2]) = _
    rw [hch]
    unfold renderBody
    simp
  · rw [renderComponent_mk]
    show renderBody "grid" (some { columns := some 3 })
      (generateVueTemplate [c1, c2]) = _
    rw [hch]
    unfold renderBody
    simp only [jsOrNat, propN, propS, jsOr]
    norm_num
    rfl

/-- C7: the page emitter of the embedding is a pure function of its two
arguments — the source consults no clock, randomness, or ambient state —
so two calls on identical inputs give byte-identical output. -/
theorem c7_emitter_deterministic (p q : Page) (a b : App)
    (hp : p = q) (ha : a = b) :
    generateVuePageComponent p a = generateVuePageComponent q b := by
  subst hp
  subst ha
  rfl

/-- C7 witness: two calls on the same concrete page and app. -/
theorem c7_witness :
    generateVuePageComponent pageNoDesc sampleApp =
      generateVuePageComponent pageNoDesc sampleApp :=
  c7_emitter_deterministic pageNoDesc pageNoDesc sampleApp sampleApp rfl rfl

set_option maxRecDepth 40000 in
/-- C2 (code bug): the claim's title part holds, but the description guard
does not. For a page with no `content.seo.description`, the template
literal `if ('${page.content?.seo?.description}')` interpolates JavaScript
`undefined` as the text `undefined`, so the emitted mounted hook reads
`if ('undefined')` — a non-empty, hence truthy, string literal — and at
runtime it always sets/creates the description metadata tag with content
`undefined`, although no description is present. The final conjunct shows
the complete emitted page source for such a page. -/
theorem c2_meta_description_guard :
    pageSeoDescription pageNoDesc = none ∧
    jsInterp (pageSeoDescription pageNoDesc) = "undefined" ∧
    jsTruthy (some (jsInterp (pageSeoDescription pageNoDesc))) = true ∧
    generateVuePageComponent pageNoDesc sampleApp =
      "<template>\n  <div class=\"page-home\">\n    <div class=\"empty-page\">This page is empty</div>\n  </div>\n</template>\n\n<script>\nexport default \x7b\n  name: \x27Home\x27,\n  data() \x7b\n    return \x7b\n      // Page data\n    \x7d\n  \x7d,\n  methods: \x7b\n    // Page methods\n  \x7d,\n  mounted() \x7b\n    // Set page title\n    document.title = \x27Welcome | Demo App\x27;\n\n    // Set meta description\n    if (\x27undefined\x27) \x7b\n      const metaDesc = document.querySelector(\x27meta[name=\"description\"]\x27);\n      if (metaDesc) \x7b\n        metaDesc.content = \x27undefined\x27;\n      \x7d else \x7b\n        const meta = document.createElement(\x27meta\x27);\n        meta.name = \x27description\x27;\n        meta.content = \x27undefined\x27;\n        document.getElementsByTagName(\x27head\x27)[0].appendChild(meta);\n      \x7d\n    \x7d\n  \x7d\n\x7d\n</script>\n\n<style scoped>\n\n</style>" := by
  refine ⟨rfl, rfl, rfl, ?_⟩
  unfold generateVuePageComponent
  rw [show pageComponents pageNoDesc = [] from rfl, generateVueTemplate_nil]
  rfl

/-- C6: a hero node is emitted as a section containing `props.title` and
`props.subtitle`, and the output contains the call-to-action
`hero-button` element exactly when `props.buttonText` is present and
non-empty (JavaScript truthiness of the ternary guard). The two
side-conditions only exclude titles/subtitles that themselves contain the
character pair `bu`, which could forge the marker text. -/
theorem c6_hero (p : Option Props)
    (hT : hasSegS "bu" (jsOr (propS p Props.title) "") = false)
    (hS : hasSegS "bu" (jsOr (propS p Props.subtitle) "") = false) :
    renderComponent (.mk "hero" p none) =
      "    <section class=\"hero\">\n      <div class=\"hero-content\">\n        <h1 class=\"hero-title\">" ++
      jsOr (propS p Props.title) "" ++
      "</h1>\n        <p class=\"hero-subtitle\">" ++
      jsOr (propS p Props.subtitle) "" ++ "</p>\n        " ++
      (if jsTruthy (propS p Props.buttonText) then
        "<button class=\"hero-button\">" ++
          jsInterp (propS p Props.buttonText) ++ "</button>"
      else "") ++
      "\n      </div>\n    </section>" ∧
    (hasSegS "hero-button" (renderComponent (.mk "hero" p none)) = true ↔
      jsTruthy (propS p Props.buttonText) = true) := by
  have hr : renderComponent (.mk "hero" p none) =
      "    <section class=\"hero\">\n      <div class=\"hero-content\">\n        <h1 class=\"hero-title\">" ++
      jsOr (propS p Props.title) "" ++
      "</h1>\n        <p class=\"hero-subtitle\">" ++
      jsOr (propS p Props.subtitle) "" ++ "</p>\n        " ++
      (if jsTruthy (propS p Props.buttonText) then
        "<button class=\"hero-button\">" ++
          jsInterp (propS p Props.buttonText) ++ "</button>"
      else "") ++
      "\n      </div>\n    </section>" := by
    rw [renderComponent_mk]
    show renderBody "hero" p "" = _
    unfold renderBody
    simp
  refine ⟨hr, ?_⟩
  rw [hr]
  by_cases hb : jsTruthy (propS p Props.buttonText) = true
  · rw [if_pos hb]
    refine iff_of_true ?_ hb
    exact hasSegS_append_left
      (hasSegS_append_right _
        (hasSegS_append_left
          (hasSegS_append_left (by decide) _) _)) _
  · have hb' : jsTruthy (propS p Props.buttonText) = false :=
      Bool.eq_false_iff.mpr hb
    rw [if_neg hb]
    refine iff_of_false ?_ (by simp [hb'])
    intro hseg
    have hbu : hasSeg ['b', 'u']
        (("    <section class=\"hero\">\n      <div class=\"hero-content\">\n        <h1 class=\"hero-title\">").data ++
          ((jsOr (propS p Props.title) "").data ++
            (("</h1>\n        <p class=\"hero-subtitle\">").data ++
              ((jsOr (propS p Props.subtitle) "").data ++
                (("</p>\n        ").data ++
                  ("\n      </div>\n    </section>").data))))) = true := by
      have h1 := @hasSeg_trans ['b', 'u'] (("hero-button").data) _
        (by decide) hseg
      simpa [hasSegS, data_append, List.append_assoc,
        show ("" : String).data = [] from rfl] using h1
    rcases hasSeg_pair_append hbu with h | ⟨hL, _⟩ | h
    · exact absurd h (by decide)
    · exact absurd hL (by decide)
    rcases hasSeg_pair_append h with h2 | ⟨_, hH⟩ | h2
    · exact absurd
        (show hasSegS "bu" (jsOr (propS p Props.title) "") = true from h2)
        (by simp [hT])
    · have hB : ((("</h1>\n        <p class=\"hero-subtitle\">").data ++
          ((jsOr (propS p Props.subtitle) "").data ++
            (("</p>\n        ").data ++
              ("\n      </div>\n    </section>").data)))).head? =
          some '<' := rfl
      exact absurd (hB.symm.trans hH) (by decide)
    rcases hasSeg_pair_append h2 with h3 | ⟨hL3, _⟩ | h3
    · exact absurd h3 (by decide)
    · exact absurd hL3 (by decide)
    rcases hasSeg_pair_append h3 with h4 | ⟨_, hH4⟩ | h4
    · exact absurd
        (show hasSegS "bu" (jsOr (propS p Props.subtitle) "") = true from h4)
        (by simp [hS])
    · have hC : ((("</p>\n        ").data ++
          ("\n      </div>\n    </section>").data)).head? = some '<' := rfl
      exact absurd (hC.symm.trans hH4) (by decide)
    rcases hasSeg_pair_append h4 with h5 | ⟨hL5, _⟩ | h5
    · exact absurd h5 (by decide)
    · exact absurd hL5 (by decide)
    · exact absurd h5 (by decide)

/-- C6 witness: a hero with title `Welcome`, subtitle `Hi` and button text
`Go`: the emitted section carries the `hero-button` element. -/
theorem c6_witness :
    renderComponent (.mk "hero" (some { title := some "Welcome", subtitle := some "Hi", buttonText := some "Go" }) none) =
      "    <section class=\"hero\">\n      <div class=\"hero-content\">\n        <h1 class=\"hero-title\">" ++
      jsOr (propS (some { title := some "Welcome", subtitle := some "Hi", buttonText := some "Go" }) Props.title) "" ++
      "</h1>\n        <p class=\"hero-subtitle\">" ++
      jsOr (propS (some { title := some "Welcome", subtitle := some "Hi", buttonText := some "Go" }) Props.subtitle) "" ++ "</p>\n        " ++
      (if jsTruthy (propS (some { title := some "Welcome", subtitle := some "Hi", buttonText := some "Go" }) Props.buttonText) then
        "<button class=\"hero-button\">" ++
          jsInterp (propS (some { title := some "Welcome", subtitle := some "Hi", buttonText := some "Go" }) Props.buttonText) ++ "</button>"
      else "") ++
      "\n      </div>\n    </section>" ∧
    (hasSegS "hero-button" (renderComponent (.mk "hero" (some { title := some "Welcome", subtitle := some "Hi", buttonText := some "Go" }) none)) = true ↔
      jsTruthy (propS (some { title := some "Welcome", subtitle := some "Hi", buttonText := some "Go" }) Props.buttonText) = true) :=
  c6_hero (some { title := some "Welcome", subtitle := some "Hi", buttonText := some "Go" })
    (by decide) (by decide)

theorem objSet_keys (m : List (String × String)) (k v : String) :
    (objSet m k v).map Prod.fst =
      if m.any (fun kv => kv.1 == k) then m.map Prod.fst
      else m.map Prod.fst ++ [k] := by
  unfold objSet
  split
  · rw [List.map_map]
    apply List.map_congr_left
    intro kv _
    by_cases h : kv.1 == k
    · simp only [Function.comp_apply, if_pos h]
      exact (beq_iff_eq.mp h).symm
    · simp only [Function.comp_apply, if_neg h]
  · simp

theorem objSet_nodup {m : List (String × String)}
    (h : (m.map Prod.fst).Nodup) (k v : String) :
    ((objSet m k v).map Prod.fst).Nodup := by
  rw [objSet_keys]
  split
  · exact h
  · rename_i hno
    have hk : k ∉ m.map Prod.fst := by
      intro hmem
      apply hno
      rw [List.any_eq_true]
      obtain ⟨a, hin, ha⟩ := List.mem_map.mp hmem
      exact ⟨a, hin, by simp [ha]⟩
    simp [List.nodup_append, h, hk]

theorem foldl_objSet_nodup {α : Type} (key val : α → String) :
    ∀ (l : List α) (m : List (String × String)),
      (m.map Prod.fst).Nodup →
      ((l.foldl (fun acc x => objSet acc (key x) (val x)) m).map
          Prod.fst).Nodup := by
  intro l
  induction l with
  | nil => intro m h; exact h
  | cons x l ih => intro m h; exact ih _ (objSet_nodup h _ _)

/-- C8 (counterexample): the pages named `"Home Page"` and `"HomePage"`
have distinct names but the same whitespace-stripped page-file key, and in
the assembled file map only one entry exists for that key, holding the
second page's emission — the first page does not keep an entry of its
own. -/
theorem c8_counterexample :
    pageSpacedName.name ≠ pagePlainName.name ∧
    pageFileKey pageSpacedName = pageFileKey pagePlainName ∧
    ((generateVueApp sampleApp [pageSpacedName, pagePlainName] [] []).map
        Prod.fst).count "src/views/HomePage.vue" = 1 ∧
    (generateVueApp sampleApp [pageSpacedName, pagePlainName] [] []).lookup
        "src/views/HomePage.vue" =
      some (generateVuePageComponent pagePlainName sampleApp) := by
  refine ⟨by decide, by decide, by decide, ?_⟩
  rfl

/-- C8 (amended): the assembled file map always has unique keys (it models
a JavaScript object), but two pages with distinct names whose
whitespace-stripped names coincide share one key, and the page assigned
later overwrites the earlier one's entry. -/
theorem c8_amended (app : App) (pages : List Page)
    (components : List CustomComponent) (functions : List FunctionRec) :
    ((generateVueApp app pages components functions).map Prod.fst).Nodup := by
  simp only [generateVueApp]
  apply foldl_objSet_nodup
  apply foldl_objSet_nodup
  have hbase : List.map Prod.fst
      [("package.json", packageJson app), ("src/main.js", mainJs pages),
        ("src/App.vue", appVue app)] =
      ["package.json", "src/main.js", "src/App.vue"] := rfl
  rw [hbase]
  decide

theorem key_mem_objSet (m : List (String × String)) (k v : String) :
    k ∈ (objSet m k v).map Prod.fst := by
  rw [objSet_keys]
  split
  · rename_i hyes
    obtain ⟨a, hin, ha⟩ := List.any_eq_true.mp hyes
    exact List.mem_map.mpr ⟨a, hin, beq_iff_eq.mp ha⟩
  · exact List.mem_append_right _ (List.mem_singleton.mpr rfl)

theorem key_mem_objSet_mono {m : List (String × String)} {k' : String}
    (h : k' ∈ m.map Prod.fst) (k v : String) :
    k' ∈ (objSet m k v).map Prod.fst := by
  rw [objSet_keys]
  split
  · exact h
  · exact List.mem_append_left _ h

theorem key_mem_foldl {α : Type} (key val : α → String) :
    ∀ (l : List α) (m : List (String × String)) (k' : String),
      k' ∈ m.map Prod.fst →
      k' ∈ (l.foldl (fun acc x => objSet acc (key x) (val x)) m).map
          Prod.fst := by
  intro l
  induction l with
  | nil => intro m k' h; exact h
  | cons x l ih => intro m k' h; exact ih _ _ (key_mem_objSet_mono h _ _)

theorem key_mem_foldl_of_mem {α : Type} (key val : α → String) :
    ∀ (l : List α) (m : List (String × String)) (x : α), x ∈ l →
      key x ∈ (l.foldl (fun acc x => objSet acc (key x) (val x)) m).map
          Prod.fst := by
  intro l
  induction l with
  | nil => intro m x h; cases h
  | cons y l ih =>
    intro m x h
    rcases List.mem_cons.mp h with rfl | h'
    · exact key_mem_foldl key val l _ _ (key_mem_objSet m _ _)
    · exact ih _ _ h'

theorem pair_mem_objSet {m : List (String × String)} {k0 v0 : String}
    (h : (k0, v0) ∈ m) {k v : String} (hne : k0 ≠ k) :
    (k0, v0) ∈ objSet m k v := by
  unfold objSet
  split
  · refine List.mem_map.mpr ⟨(k0, v0), h, ?_⟩
    simp [beq_iff_eq, hne]
  · exact List.mem_append_left _ h

theorem pair_mem_foldl {α : Type} (key val : α → String) {k0 v0 : String}
    (hne : ∀ x : α, k0 ≠ key x) :
    ∀ (l : List α) (m : List (String × String)), (k0, v0) ∈ m →
      (k0, v0) ∈ l.foldl (fun acc x => objSet acc (key x) (val x)) m := by
  intro l
  induction l with
  | nil => intro m h; exact h
  | cons x l ih => intro m h; exact ih _ (pair_mem_objSet h (hne x))

theorem mem_seg_joinSep (sep : String) :
    ∀ (l : List String) (x : String), x ∈ l →
      hasSegS x (joinSep sep l) = true := by
  intro l
  induction l with
  | nil => intro x h; cases h
  | cons s rest ih =>
    intro x h
    cases rest with
    | nil =>
      rw [List.mem_singleton] at h
      subst h
      exact hasSegS_refl x
    | cons s2 rest2 =>
      rcases List.mem_cons.mp h with rfl | h'
      · exact hasSegS_append_left (hasSegS_append_left (hasSegS_refl x) _) _
      · exact hasSegS_append_right _ (ih _ h')

theorem main_ne_pageFileKey (page : Page) :
    "src/main.js" ≠ pageFileKey page := by
  intro h
  have h4 : (pageFileKey page).data.get? 4 = some 'v' := rfl
  rw [← h] at h4
  exact absurd h4 (by decide)

theorem main_ne_componentFileKey (c : CustomComponent) :
    "src/main.js" ≠ componentFileKey c := by
  intro h
  have h4 : (componentFileKey c).data.get? 4 = some 'c' := rfl
  rw [← h] at h4
  exact absurd h4 (by decide)

/-- C9: the generated-file identifier derived from a page's display name is
the name with all whitespace removed; it contains no whitespace character,
it keys the page's entry under `src/views/` in the assembled file map, and
the emitted `src/main.js` route table uses it as the page's route name and
component import for every page, in the `src/main.js` entry the file map
carries. -/
theorem c9_page_identifier :
    (∀ s : String, ∀ c ∈ (stripWS s).data, isJsWhitespace c = false) ∧
    (∀ (app : App) (pages : List Page) (components : List CustomComponent)
        (functions : List FunctionRec) (page : Page), page ∈ pages →
      pageFileKey page ∈
        (generateVueApp app pages components functions).map Prod.fst) ∧
    (∀ (pages : List Page) (page : Page), page ∈ pages →
      hasSegS (routeEntry page) (mainJs pages) = true) ∧
    (∀ (app : App) (pages : List Page) (components : List CustomComponent)
        (functions : List FunctionRec),
      ("src/main.js", mainJs pages) ∈
        generateVueApp app pages components functions) := by
  refine ⟨?_, ?_, ?_, ?_⟩
  · intro s c hc
    have := List.mem_filter.mp hc
    simpa using this.2
  · intro app pages components functions page hmem
    simp only [generateVueApp]
    exact key_mem_foldl _ _ components _ _
      (key_mem_foldl_of_mem _ _ pages _ page hmem)
  · intro pages page hmem
    unfold mainJs
    exact hasSegS_append_left
      (hasSegS_append_right _
        (mem_seg_joinSep ",\n" (pages.map routeEntry) _
          (List.mem_map_of_mem routeEntry hmem))) _
  · intro app pages components functions
    simp only [generateVueApp]
    apply pair_mem_foldl _ _ main_ne_componentFileKey
    apply pair_mem_foldl _ _ main_ne_pageFileKey
    simp

/-- C9 witness: the page named `"Home Page"` in a one-page app. -/
theorem c9_witness :
    (∀ c ∈ (stripWS "Home Page").data, isJsWhitespace c = false) ∧
    pageFileKey pageSpacedName ∈
      (generateVueApp sampleApp [pageSpacedName] [] []).map Prod.fst ∧
    hasSegS (routeEntry pageSpacedName) (mainJs [pageSpacedName]) = true ∧
    ("src/main.js", mainJs [pageSpacedName]) ∈
      generateVueApp sampleApp [pageSpacedName] [] [] :=
  ⟨c9_page_identifier.1 "Home Page",
   c9_page_identifier.2.1 sampleApp [pageSpacedName] [] [] pageSpacedName
     (List.mem_singleton.mpr rfl),
   c9_page_identifier.2.2.1 [pageSpacedName] pageSpacedName
     (List.mem_singleton.mpr rfl),
   c9_page_identifier.2.2.2 sampleApp [pageSpacedName] [] []⟩

theorem component_sizeOf_pos (c : Component) : 0 < sizeOf c := by
  obtain ⟨t, p, ch⟩ := c
  simp only [Component.mk.sizeOf_spec]
  omega

theorem list_sizeOf_pos (cs : List Component) : 0 < sizeOf cs := by
  cases cs with
  | nil => simp
  | cons c rest => simp only [List.cons.sizeOf_spec]; omega

theorem renderComponentF_succ (n : Nat) (t : String) (p : Option Props)
    (ch : Option (List Component)) :
    renderComponentF (n + 1) (.mk t p ch) =
      (match ch with
       | none => some ""
       | some cs => generateVueTemplateF n cs).map (renderBody t p) := by
  rw [renderComponentF.eq_def]

theorem generateVueTemplateF_nil (n : Nat) :
    generateVueTemplateF (n + 1) [] =
      some "    <div class=\"empty-page\">This page is empty</div>" := by
  rw [generateVueTemplateF]

theorem generateVueTemplateF_singleton (n : Nat) (c : Component) :
    generateVueTemplateF (n + 1) [c] = renderComponentF n c := by
  rw [generateVueTemplateF]

theorem generateVueTemplateF_cons (n : Nat) (c d : Component)
    (rest : List Component) :
    generateVueTemplateF (n + 1) (c :: d :: rest) =
      (renderComponentF n c).bind (fun s =>
        (generateVueTemplateF n (d :: rest)).map
          (fun t2 => s ++ "\n" ++ t2)) := by
  rw [generateVueTemplateF]
  simp

theorem fuel_adequate : ∀ n : Nat,
    (∀ c : Component, sizeOf c ≤ n →
      renderComponentF n c = some (renderComponent c)) ∧
    (∀ cs : List Component, sizeOf cs ≤ n →
      generateVueTemplateF n cs = some (generateVueTemplate cs)) := by
  intro n
  induction n with
  | zero =>
    constructor
    · intro c hc
      exact absurd hc (by have := component_sizeOf_pos c; omega)
    · intro cs hcs
      exact absurd hcs (by have := list_sizeOf_pos cs; omega)
  | succ n ih =>
    obtain ⟨ihc, ihl⟩ := ih
    constructor
    · intro c hc
      obtain ⟨t, p, ch⟩ := c
      cases ch with
      | none =>
        rw [renderComponentF_succ, renderComponent_mk]
        rfl
      | some cs =>
        have hcs : sizeOf cs ≤ n := by
          simp only [Component.mk.sizeOf_spec, Option.some.sizeOf_spec] at hc
          omega
        rw [renderComponentF_succ, renderComponent_mk]
        show (generateVueTemplateF n cs).map (renderBody t p) =
          some (renderBody t p (generateVueTemplate cs))
        rw [ihl cs hcs]
        rfl
    · intro cs hcs
      cases cs with
      | nil => rw [generateVueTemplateF_nil, generateVueTemplate_nil]
      | cons c rest =>
        cases rest with
        | nil =>
          have hc : sizeOf c ≤ n := by
            simp only [List.cons.sizeOf_spec, List.nil.sizeOf_spec] at hcs
            omega
          rw [generateVueTemplateF_singleton, generateVueTemplate_singleton,
            ihc c hc]
        | cons d rest2 =>
          have hc : sizeOf c ≤ n := by
            have := list_sizeOf_pos (d :: rest2)
            simp only [List.cons.sizeOf_spec] at hcs
            omega
          have hrest : sizeOf (d :: rest2) ≤ n := by
            have := component_sizeOf_pos c
            simp only [List.cons.sizeOf_spec] at hcs ⊢
            omega
          rw [generateVueTemplateF_cons, ihc c hc, ihl (d :: rest2) hrest,
            generateVueTemplate_cons]
          rfl

/-- C10: the recursive template emission is total on every finite component
tree: it always produces a single output string, and although the source
places no explicit bound on recursion depth, fuel equal to the tree's size
always suffices for the fuel-bounded evaluator to reach the same result. -/
theorem c10_emitter_terminates (cs : List Component) :
    generateVueTemplateF (sizeOf cs) cs = some (generateVueTemplate cs) :=
  (fuel_adequate (sizeOf cs)).2 cs (Nat.le_refl _)
